import Mathlib

/-!
# Verification of the Client CMS core (src/api/main.py)

A shallow embedding of the content-persistence and access-control core of
the Client CMS API. Pydantic models become Lean structures, the SQLAlchemy
tables become lists of rows queried by their `site_id` column, and the JSON
text columns are modelled at the level of the JSON document tree: Python's
`json.dumps`/`json.loads` pair is the identity on that tree, so a column
stores the tree produced by `model_dump` and reading applies the pydantic
constructor to it.  Fallible decoding (pydantic validation / `json.loads`
errors) returns `Option`; endpoint handlers return `Except ApiErr`,
mirroring `HTTPException`.  Environment-derived configuration (the
`DEMO_PASSWORDS` fallback table and the `ADMIN_PASSWORD` master password)
is passed as parameters.
-/

namespace ClientCMS

/-- JSON document tree, covering the shapes produced by `model_dump` of the
pydantic models in this API (strings, nulls, booleans, arrays, objects).
No numeric fields occur in any model, so numbers are omitted. -/
inductive Json where
  | null : Json
  | bool (b : Bool) : Json
  | str (s : String) : Json
  | arr (xs : List Json) : Json
  | obj (fields : List (String × Json)) : Json

/-- Dictionary lookup on a JSON object's field list (keys produced by
`model_dump` are unique, so first-match lookup is dict lookup). -/
def jLookup (k : String) : List (String × Json) → Option Json
  | [] => none
  | (k₂, v) :: fs => if k₂ = k then some v else jLookup k fs

/-- Pydantic validation of a required `str` field: absent, null, or
non-string values are rejected. -/
def readStr : Option Json → Option String
  | some (.str s) => some s
  | _ => none

/-- Pydantic validation of a `str` field with a default: absent uses the
default, a string is accepted, anything else is rejected. -/
def readStrD (d : String) : Option Json → Option String
  | none => some d
  | some (.str s) => some s
  | some _ => none

/-- Pydantic validation of an `Optional[str] = None` field: absent or null
becomes `None`, a string is accepted, anything else is rejected. -/
def readOptStr : Option Json → Option (Option String)
  | none => some none
  | some .null => some none
  | some (.str s) => some (some s)
  | some _ => none

/-- Pydantic validation of a `bool` field with a default. -/
def readBoolD (d : Bool) : Option Json → Option Bool
  | none => some d
  | some (.bool b) => some b
  | some _ => none

/-- `model_dump` of an `Optional[str]` value: `None` becomes JSON null. -/
def optStrJson : Option String → Json
  | none => .null
  | some s => .str s

/-- The Python list comprehension `[Model(**x) for x in xs]`: decodes each
element, failing (raising) on the first validation error. -/
def decodeList (f : Json → Option α) : List Json → Option (List α)
  | [] => some []
  | j :: js => do
      let a ← f j
      let as ← decodeList f js
      some (a :: as)

/-- `json.loads` of a list column followed by element-wise validation:
the document must be an array. -/
def jsonToList (f : Json → Option α) : Json → Option (List α)
  | .arr js => decodeList f js
  | _ => none

/-! ## Pydantic models -/

/-- `Hours`: fixed seven-day mapping, every day defaulting to `"Closed"`. -/
structure Hours where
  monday : String := "Closed"
  tuesday : String := "Closed"
  wednesday : String := "Closed"
  thursday : String := "Closed"
  friday : String := "Closed"
  saturday : String := "Closed"
  sunday : String := "Closed"
deriving DecidableEq

/-- `Service` sub-record. -/
structure Service where
  id : Option String := none
  title : String
  description : String
  price : Option String := none
  icon : Option String := none
deriving DecidableEq

/-- `StaffMember` sub-record. -/
structure StaffMember where
  id : Option String := none
  name : String
  role : String
  bio : Option String := none
  image : Option String := none
deriving DecidableEq

/-- `MenuItem` sub-record. -/
structure MenuItem where
  id : Option String := none
  name : String
  description : Option String := none
  price : String
  category : Option String := none
deriving DecidableEq

/-- `Promotion` sub-record. -/
structure Promotion where
  id : Option String := none
  title : String
  description : String
  active : Bool := true
deriving DecidableEq

/-- `SiteContent`: the full per-site content record. -/
structure SiteContent where
  site_id : String
  business_name : String
  tagline : Option String := none
  phone : Option String := none
  email : Option String := none
  address : Option String := none
  hours : Hours := {}
  services : List Service := []
  staff : List StaffMember := []
  menu_items : List MenuItem := []
  promotions : List Promotion := []
deriving DecidableEq

/-- `SiteAuth`: login request body. -/
structure SiteAuth where
  site_id : String
  password : String
deriving DecidableEq

/-- `SiteCreate`: site-creation request body. -/
structure SiteCreate where
  site_id : String
  business_name : String
  password : String
deriving DecidableEq

/-- The dict returned by a successful `login`. -/
structure LoginResp where
  token : String
  site_id : String
deriving DecidableEq

/-! ## Database rows -/

/-- A row of the `site_content` table.  `site_id` is the primary key; the
JSON text columns hold the document tree (column defaults `"{}"` / `"[]"`
become the empty object / array). -/
structure SiteContentDB where
  site_id : String
  business_name : String := ""
  tagline : Option String := none
  phone : Option String := none
  email : Option String := none
  address : Option String := none
  hours_json : Json := .obj []
  services_json : Json := .arr []
  staff_json : Json := .arr []
  menu_items_json : Json := .arr []
  promotions_json : Json := .arr []

/-- A row of the `site_passwords` table. -/
structure SitePasswordDB where
  site_id : String
  password_hash : String
deriving DecidableEq

/-- The database state: the two tables.  Queries filter rows by the
`site_id` column and take the first match, exactly like the
`db.query(...).filter(...).first()` calls in the source. -/
structure DB where
  site_content : List SiteContentDB
  site_passwords : List SitePasswordDB

/-- The empty database. -/
def DB.empty : DB := { site_content := [], site_passwords := [] }

/-! ## model_dump serialization (`content_to_db` direction) -/

/-- `json.dumps(hours.model_dump())` as a document tree. -/
def hoursToJson (h : Hours) : Json :=
  .obj [("monday", .str h.monday), ("tuesday", .str h.tuesday),
        ("wednesday", .str h.wednesday), ("thursday", .str h.thursday),
        ("friday", .str h.friday), ("saturday", .str h.saturday),
        ("sunday", .str h.sunday)]

/-- `service.model_dump()` as a document tree. -/
def serviceToJson (s : Service) : Json :=
  .obj [("id", optStrJson s.id), ("title", .str s.title),
        ("description", .str s.description), ("price", optStrJson s.price),
        ("icon", optStrJson s.icon)]

/-- `staff_member.model_dump()` as a document tree. -/
def staffToJson (s : StaffMember) : Json :=
  .obj [("id", optStrJson s.id), ("name", .str s.name),
        ("role", .str s.role), ("bio", optStrJson s.bio),
        ("image", optStrJson s.image)]

/-- `menu_item.model_dump()` as a document tree. -/
def menuItemToJson (m : MenuItem) : Json :=
  .obj [("id", optStrJson m.id), ("name", .str m.name),
        ("description", optStrJson m.description), ("price", .str m.price),
        ("category", optStrJson m.category)]

/-- `promotion.model_dump()` as a document tree. -/
def promotionToJson (p : Promotion) : Json :=
  .obj [("id", optStrJson p.id), ("title", .str p.title),
        ("description", .str p.description), ("active", .bool p.active)]

/-! ## Validation (`db_to_content` direction) -/

/-- `Hours(**json.loads(col))`: absent keys default to `"Closed"`, extra
keys are ignored, non-object documents raise. -/
def hoursFromJson : Json → Option Hours
  | .obj fs => do
      let monday ← readStrD "Closed" (jLookup "monday" fs)
      let tuesday ← readStrD "Closed" (jLookup "tuesday" fs)
      let wednesday ← readStrD "Closed" (jLookup "wednesday" fs)
      let thursday ← readStrD "Closed" (jLookup "thursday" fs)
      let friday ← readStrD "Closed" (jLookup "friday" fs)
      let saturday ← readStrD "Closed" (jLookup "saturday" fs)
      let sunday ← readStrD "Closed" (jLookup "sunday" fs)
      some { monday, tuesday, wednesday, thursday, friday, saturday, sunday }
  | _ => none

/-- `Service(**x)`. -/
def serviceFromJson : Json → Option Service
  | .obj fs => do
      let id ← readOptStr (jLookup "id" fs)
      let title ← readStr (jLookup "title" fs)
      let description ← readStr (jLookup "description" fs)
      let price ← readOptStr (jLookup "price" fs)
      let icon ← readOptStr (jLookup "icon" fs)
      some { id, title, description, price, icon }
  | _ => none

/-- `StaffMember(**x)`. -/
def staffFromJson : Json → Option StaffMember
  | .obj fs => do
      let id ← readOptStr (jLookup "id" fs)
      let name ← readStr (jLookup "name" fs)
      let role ← readStr (jLookup "role" fs)
      let bio ← readOptStr (jLookup "bio" fs)
      let image ← readOptStr (jLookup "image" fs)
      some { id, name, role, bio, image }
  | _ => none

/-- `MenuItem(**x)`. -/
def menuItemFromJson : Json → Option MenuItem
  | .obj fs => do
      let id ← readOptStr (jLookup "id" fs)
      let name ← readStr (jLookup "name" fs)
      let description ← readOptStr (jLookup "description" fs)
      let price ← readStr (jLookup "price" fs)
      let category ← readOptStr (jLookup "category" fs)
      some { id, name, description, price, category }
  | _ => none

/-- `Promotion(**x)`. -/
def promotionFromJson : Json → Option Promotion
  | .obj fs => do
      let id ← readOptStr (jLookup "id" fs)
      let title ← readStr (jLookup "title" fs)
      let description ← readStr (jLookup "description" fs)
      let active ← readBoolD true (jLookup "active" fs)
      some { id, title, description, active }
  | _ => none

/-! ## Storage helpers -/

/-- `db_to_content`: rebuild a `SiteContent` from a database row;
`None` on a pydantic validation error. -/
def db_to_content (db_site : SiteContentDB) : Option SiteContent := do
  let hours ← hoursFromJson db_site.hours_json
  let services ← jsonToList serviceFromJson db_site.services_json
  let staff ← jsonToList staffFromJson db_site.staff_json
  let menu_items ← jsonToList menuItemFromJson db_site.menu_items_json
  let promotions ← jsonToList promotionFromJson db_site.promotions_json
  some { site_id := db_site.site_id, business_name := db_site.business_name,
         tagline := db_site.tagline, phone := db_site.phone,
         email := db_site.email, address := db_site.address,
         hours, services, staff, menu_items, promotions }

/-- `content_to_db`: overwrite every column of a row (except the primary
key, which the function never touches) from a `SiteContent`. -/
def content_to_db (content : SiteContent) (db_site : SiteContentDB) : SiteContentDB :=
  { db_site with
    business_name := content.business_name,
    tagline := content.tagline,
    phone := content.phone,
    email := content.email,
    address := content.address,
    hours_json := hoursToJson content.hours,
    services_json := .arr (content.services.map serviceToJson),
    staff_json := .arr (content.staff.map staffToJson),
    menu_items_json := .arr (content.menu_items.map menuItemToJson),
    promotions_json := .arr (content.promotions.map promotionToJson) }

/-- Python `str.replace` with an empty pattern: the replacement is
interleaved at every character boundary. -/
def replaceEmptyPat (rep : List Char) : List Char → List Char
  | [] => rep
  | c :: cs => rep ++ c :: replaceEmptyPat rep cs

/-- Python `str.replace` with a non-empty pattern: non-overlapping
occurrences are replaced left to right.  The fuel argument makes the
recursion structural; every call consumes at least one character, so fuel
equal to the length of the text is enough. -/
def replaceAux (pat rep : List Char) : Nat → List Char → List Char
  | _, [] => []
  | 0, s => s
  | fuel + 1, c :: cs =>
      if pat.isPrefixOf (c :: cs) then
        rep ++ replaceAux pat rep fuel (List.drop pat.length (c :: cs))
      else
        c :: replaceAux pat rep fuel cs

/-- Python `str.replace(pat, rep)`. -/
def pyReplace (s pat rep : String) : String :=
  if pat.data = [] then ⟨replaceEmptyPat rep.data s.data⟩
  else ⟨replaceAux pat.data rep.data s.data.length s.data⟩

/-- Python `str.title()` state: uppercase a cased character that follows a
non-cased one, lowercase a cased character that follows a cased one
(ASCII letters, matching the identifiers this API handles). -/
def titleAux : List Char → Bool → List Char
  | [], _ => []
  | c :: cs, prevCased =>
      (if c.isAlpha then (if prevCased then c.toLower else c.toUpper) else c)
        :: titleAux cs c.isAlpha

/-- Python `str.title()`. -/
def pyTitle (s : String) : String := ⟨titleAux s.data false⟩

/-- `load_site`: first row whose `site_id` column matches, decoded; a
deterministic default record when no row exists.  `None` models the
uncaught decoding exception on a malformed row. -/
def load_site (site_id : String) (db : DB) : Option SiteContent :=
  match db.site_content.find? (fun r => r.site_id = site_id) with
  | some db_site => db_to_content db_site
  | none => some { site_id := site_id,
                   business_name := pyTitle (pyReplace site_id "-" " ") }

/-- Mutating the first row matching a predicate, as SQLAlchemy does when
the object returned by `.first()` is updated in place. -/
def updateFirst (p : α → Bool) (f : α → α) : List α → List α
  | [] => []
  | x :: xs => if p x then f x :: xs else x :: updateFirst p f xs

/-- `save_site`: upsert keyed by `content.site_id` — update the matching
row in place if one exists, otherwise insert a fresh row. -/
def save_site (content : SiteContent) (db : DB) : DB :=
  match db.site_content.find? (fun r => r.site_id = content.site_id) with
  | some _ =>
      let tbl := updateFirst (fun r => r.site_id = content.site_id)
        (fun r => content_to_db content r) db.site_content
      { db with site_content := tbl }
  | none =>
      { db with site_content :=
          db.site_content ++ [content_to_db content { site_id := content.site_id }] }

/-! ## Auth -/

/-- The error taxonomy of the endpoints, one constructor per distinct
`HTTPException` in the source (spec names in parentheses):
`missingAuthToken` = 401 "Missing auth token" (Unauthorized),
`invalidAuthToken` = 401 "Invalid auth token" (InvalidCredential),
`invalidCredentials` = 401 "Invalid credentials" (InvalidCredential),
`adminAuthRequired` = 401 "Admin auth required" (Forbidden),
`siteAlreadyExists` = 400 "Site already exists" (AlreadyExists),
`serverError` = an uncaught exception (500). -/
inductive ApiErr where
  | missingAuthToken
  | invalidAuthToken
  | invalidCredentials
  | adminAuthRequired
  | siteAlreadyExists
  | serverError
deriving DecidableEq

/-- The `DEMO_PASSWORDS` fallback table, parameterized by the process
environment (`os.getenv`), mapping the three pre-provisioned demo site ids
to their passwords. -/
def DEMO_PASSWORDS (env : String → Option String) : String → Option String :=
  fun site_id =>
    if site_id = "clater-jewelers" then some ((env "CLATER_PASSWORD").getD "demo123")
    else if site_id = "fritz-salon" then some ((env "FRITZ_PASSWORD").getD "demo123")
    else if site_id = "jw-cafe" then some ((env "JW_PASSWORD").getD "demo123")
    else none

/-- `verify_auth`: reject an absent or empty token outright; otherwise
compare against the database password row if one exists, else against the
fallback table entry (defaulting to `""` when absent), by exact string
equality. -/
def verify_auth (demo : String → Option String) (site_id : String)
    (x_auth_token : Option String) (db : DB) : Except ApiErr Bool :=
  match x_auth_token with
  | none => .error .missingAuthToken
  | some t =>
      if t = "" then .error .missingAuthToken
      else
        match db.site_passwords.find? (fun r => r.site_id = site_id) with
        | some site_pw =>
            if t ≠ site_pw.password_hash then .error .invalidAuthToken else .ok true
        | none =>
            let expected := (demo site_id).getD ""
            if t ≠ expected then .error .invalidAuthToken else .ok true

/-- The credential `verify_auth` compares against: the database password
row when present, otherwise the fallback-table entry, otherwise `""`
(the spec's `ResolveCredential`). -/
def resolveCredential (demo : String → Option String) (db : DB)
    (site_id : String) : String :=
  match db.site_passwords.find? (fun r => r.site_id = site_id) with
  | some site_pw => site_pw.password_hash
  | none => (demo site_id).getD ""

/-- `login`: database password row first; otherwise the fallback entry,
where Python's `if not expected` also rejects an empty-string entry.  On
success the returned token is the submitted password itself. -/
def login (demo : String → Option String) (auth : SiteAuth) (db : DB) :
    Except ApiErr LoginResp :=
  match db.site_passwords.find? (fun r => r.site_id = auth.site_id) with
  | some site_pw =>
      if auth.password ≠ site_pw.password_hash then .error .invalidCredentials
      else .ok { token := auth.password, site_id := auth.site_id }
  | none =>
      match demo auth.site_id with
      | none => .error .invalidCredentials
      | some expected =>
          if expected = "" then .error .invalidCredentials
          else if auth.password ≠ expected then .error .invalidCredentials
          else .ok { token := auth.password, site_id := auth.site_id }

/-! ## Admin endpoints -/

/-- `create_site`: gated by the master password; fails if a content row
already exists; otherwise inserts a minimal content row and a password row
equal to the supplied password.  Inserting a password row whose primary
key already exists makes the commit raise (`serverError`), matching the
primary-key constraint of the `site_passwords` table. -/
def create_site (master_pw : String) (site_data : SiteCreate)
    (x_auth_token : Option String) (db : DB) : Except ApiErr DB :=
  if x_auth_token ≠ some master_pw then .error .adminAuthRequired
  else
    match db.site_content.find? (fun r => r.site_id = site_data.site_id) with
    | some _ => .error .siteAlreadyExists
    | none =>
        match db.site_passwords.find? (fun r => r.site_id = site_data.site_id) with
        | some _ => .error .serverError
        | none =>
            .ok { site_content :=
                    db.site_content ++
                      [{ site_id := site_data.site_id,
                         business_name := site_data.business_name }],
                  site_passwords :=
                    db.site_passwords ++
                      [{ site_id := site_data.site_id,
                         password_hash := site_data.password }] }

/-- `update_site`: authenticated full-record save; the path's `site_id`
overwrites whatever `site_id` the client supplied in the body. -/
def update_site (demo : String → Option String) (site_id : String)
    (content : SiteContent) (x_auth_token : Option String) (db : DB) :
    Except ApiErr DB :=
  match verify_auth demo site_id x_auth_token db with
  | .error e => .error e
  | .ok _ => .ok (save_site { content with site_id := site_id } db)

/-- Python truthiness of an id field: `not x.id` holds for `None` and for
the empty string. -/
def idMissing : Option String → Bool
  | none => true
  | some s => s = ""

/-- The id back-fill loop `for i, x in enumerate(xs): if not x.id: x.id =
f"<pre>-{i}"`, starting at index `n`. -/
def backfillIds (pre : String) (getI : α → Option String)
    (setI : α → Option String → α) (n : Nat) : List α → List α
  | [] => []
  | x :: xs =>
      (if idMissing (getI x) then setI x (some (pre ++ "-" ++ toString n)) else x)
        :: backfillIds pre getI setI (n + 1) xs

/-- The services back-fill loop of `update_services`. -/
def assignServiceIds (services : List Service) : List Service :=
  backfillIds "svc" Service.id (fun s v => { s with id := v }) 0 services

/-- The staff back-fill loop of `update_staff`. -/
def assignStaffIds (staff : List StaffMember) : List StaffMember :=
  backfillIds "staff" StaffMember.id (fun s v => { s with id := v }) 0 staff

/-- The menu back-fill loop of `update_menu`. -/
def assignMenuItemIds (items : List MenuItem) : List MenuItem :=
  backfillIds "menu" MenuItem.id (fun m v => { m with id := v }) 0 items

/-- The promotions back-fill loop of `update_promotions`. -/
def assignPromotionIds (promos : List Promotion) : List Promotion :=
  backfillIds "promo" Promotion.id (fun p v => { p with id := v }) 0 promos

/-- `update_hours`: authenticated merge of the `hours` field. -/
def update_hours (demo : String → Option String) (site_id : String)
    (hours : Hours) (x_auth_token : Option String) (db : DB) :
    Except ApiErr DB :=
  match verify_auth demo site_id x_auth_token db with
  | .error e => .error e
  | .ok _ =>
      match load_site site_id db with
      | none => .error .serverError
      | some site => .ok (save_site { site with hours := hours } db)

/-- `update_services`: authenticated merge of the `services` field with id
back-fill. -/
def update_services (demo : String → Option String) (site_id : String)
    (services : List Service) (x_auth_token : Option String) (db : DB) :
    Except ApiErr DB :=
  match verify_auth demo site_id x_auth_token db with
  | .error e => .error e
  | .ok _ =>
      match load_site site_id db with
      | none => .error .serverError
      | some site =>
          .ok (save_site { site with services := assignServiceIds services } db)

/-- `update_menu`: authenticated merge of the `menu_items` field with id
back-fill. -/
def update_menu (demo : String → Option String) (site_id : String)
    (items : List MenuItem) (x_auth_token : Option String) (db : DB) :
    Except ApiErr DB :=
  match verify_auth demo site_id x_auth_token db with
  | .error e => .error e
  | .ok _ =>
      match load_site site_id db with
      | none => .error .serverError
      | some site =>
          .ok (save_site { site with menu_items := assignMenuItemIds items } db)

/-- `update_staff`: authenticated merge of the `staff` field with id
back-fill. -/
def update_staff (demo : String → Option String) (site_id : String)
    (staff : List StaffMember) (x_auth_token : Option String) (db : DB) :
    Except ApiErr DB :=
  match verify_auth demo site_id x_auth_token db with
  | .error e => .error e
  | .ok _ =>
      match load_site site_id db with
      | none => .error .serverError
      | some site =>
          .ok (save_site { site with staff := assignStaffIds staff } db)

/-- `update_promotions`: authenticated merge of the `promotions` field
with id back-fill. -/
def update_promotions (demo : String → Option String) (site_id : String)
    (promos : List Promotion) (x_auth_token : Option String) (db : DB) :
    Except ApiErr DB :=
  match verify_auth demo site_id x_auth_token db with
  | .error e => .error e
  | .ok _ =>
      match load_site site_id db with
      | none => .error .serverError
      | some site =>
          .ok (save_site { site with promotions := assignPromotionIds promos } db)

/-! ## Round-trip lemmas for the serialized representation -/

theorem readOptStr_optStrJson (o : Option String) :
    readOptStr (some (optStrJson o)) = some o := by
  cases o <;> rfl

theorem hoursFromJson_toJson (h : Hours) :
    hoursFromJson (hoursToJson h) = some h := rfl

theorem serviceFromJson_toJson (s : Service) :
    serviceFromJson (serviceToJson s) = some s := by
  cases s with
  | mk id title description price icon => cases id <;> cases price <;> cases icon <;> rfl

theorem staffFromJson_toJson (s : StaffMember) :
    staffFromJson (staffToJson s) = some s := by
  cases s with
  | mk id name role bio image => cases id <;> cases bio <;> cases image <;> rfl

theorem menuItemFromJson_toJson (m : MenuItem) :
    menuItemFromJson (menuItemToJson m) = some m := by
  cases m with
  | mk id name description price category =>
      cases id <;> cases description <;> cases category <;> rfl

theorem promotionFromJson_toJson (p : Promotion) :
    promotionFromJson (promotionToJson p) = some p := by
  cases p with
  | mk id title description active => cases id <;> rfl

theorem decodeList_map {f : Json → Option α} {g : α → Json}
    (hfg : ∀ x, f (g x) = some x) :
    ∀ xs : List α, decodeList f (xs.map g) = some xs
  | [] => rfl
  | x :: xs => by
      simp [decodeList, hfg x, decodeList_map hfg xs]

theorem jsonToList_map {f : Json → Option α} {g : α → Json}
    (hfg : ∀ x, f (g x) = some x) (xs : List α) :
    jsonToList f (.arr (xs.map g)) = some xs :=
  decodeList_map hfg xs

theorem content_to_db_site_id (c : SiteContent) (base : SiteContentDB) :
    (content_to_db c base).site_id = base.site_id := rfl

theorem db_to_content_content_to_db (c : SiteContent) (base : SiteContentDB)
    (h : base.site_id = c.site_id) :
    db_to_content (content_to_db c base) = some c := by
  cases c with
  | mk site_id business_name tagline phone email address hours services staff
      menu_items promotions =>
    simp only [content_to_db, db_to_content, hoursFromJson_toJson,
      jsonToList_map serviceFromJson_toJson,
      jsonToList_map staffFromJson_toJson,
      jsonToList_map menuItemFromJson_toJson,
      jsonToList_map promotionFromJson_toJson, Option.bind_some]
    simpa using h

theorem db_to_content_site_id {row : SiteContentDB} {c : SiteContent}
    (h : db_to_content row = some c) : c.site_id = row.site_id := by
  unfold db_to_content at h
  cases h1 : hoursFromJson row.hours_json with
  | none => rw [h1] at h; simp at h
  | some hours =>
  rw [h1] at h
  cases h2 : jsonToList serviceFromJson row.services_json with
  | none => rw [h2] at h; simp at h
  | some services =>
  rw [h2] at h
  cases h3 : jsonToList staffFromJson row.staff_json with
  | none => rw [h3] at h; simp at h
  | some staff =>
  rw [h3] at h
  cases h4 : jsonToList menuItemFromJson row.menu_items_json with
  | none => rw [h4] at h; simp at h
  | some menu_items =>
  rw [h4] at h
  cases h5 : jsonToList promotionFromJson row.promotions_json with
  | none => rw [h5] at h; simp at h
  | some promotions =>
  rw [h5] at h
  cases h
  rfl

/-! ## Store lemmas -/

theorem find?_updateFirst {p : α → Bool} {f : α → α}
    (hp : ∀ x, p x = true → p (f x) = true) :
    ∀ xs : List α, (updateFirst p f xs).find? p = (xs.find? p).map f
  | [] => rfl
  | x :: xs => by
      by_cases h : p x = true
      · simp [updateFirst, h, List.find?_cons_of_pos, hp x h]
      · simp [updateFirst, h, List.find?_cons_of_neg, find?_updateFirst hp xs]

theorem find?_append_none {p : α → Bool} :
    ∀ {xs : List α}, xs.find? p = none → ∀ ys, (xs ++ ys).find? p = ys.find? p
  | [], _, ys => rfl
  | x :: xs, h, ys => by
      by_cases hx : p x = true
      · rw [List.find?_cons_of_pos _ hx] at h; cases h
      · rw [List.find?_cons_of_neg _ hx] at h
        simp [List.find?_cons_of_neg _ hx, find?_append_none h ys]

theorem save_site_passwords (c : SiteContent) (db : DB) :
    (save_site c db).site_passwords = db.site_passwords := by
  unfold save_site
  cases db.site_content.find? (fun r => r.site_id = c.site_id) <;> rfl

/-- The round trip through the store: `save_site` then `load_site` at the
same identifier recovers the saved content exactly. -/
theorem load_site_save_site (c : SiteContent) (db : DB) :
    load_site c.site_id (save_site c db) = some c := by
  unfold load_site save_site
  cases hf : db.site_content.find? (fun r => r.site_id = c.site_id) with
  | some r =>
      have hr : r.site_id = c.site_id := by
        have := List.find?_some hf
        simpa using this
      have hp : ∀ x : SiteContentDB, (x.site_id = c.site_id : Bool) = true →
          ((content_to_db c x).site_id = c.site_id : Bool) = true := by
        intro x hx
        simpa [content_to_db_site_id] using hx
      simp only [hf, find?_updateFirst hp, hf, Option.map_some]
      exact db_to_content_content_to_db c r hr
  | none =>
      simp only [hf]
      rw [find?_append_none hf]
      rw [List.find?_cons_of_pos]
      · exact db_to_content_content_to_db c _ rfl
      · simp [content_to_db_site_id]

theorem load_site_site_id {site_id : String} {db : DB} {s : SiteContent}
    (h : load_site site_id db = some s) : s.site_id = site_id := by
  unfold load_site at h
  cases hf : db.site_content.find? (fun r => r.site_id = site_id) with
  | none => rw [hf] at h; cases h; rfl
  | some r =>
      rw [hf] at h
      have hr : r.site_id = site_id := by
        have := List.find?_some hf
        simpa using this
      rw [db_to_content_site_id h, hr]

/-! ## Back-fill lemmas -/

theorem backfillIds_getElem? (pre : String) (getI : α → Option String)
    (setI : α → Option String → α) :
    ∀ (n : Nat) (xs : List α) (i : Nat),
      (backfillIds pre getI setI n xs)[i]? = (xs[i]?).map
        (fun x => if idMissing (getI x) then
            setI x (some (pre ++ "-" ++ toString (n + i))) else x)
  | _, [], _ => by simp [backfillIds]
  | n, x :: xs, 0 => by simp [backfillIds]
  | n, x :: xs, i + 1 => by
      have harith : n + 1 + i = n + (i + 1) := by omega
      simp only [backfillIds, List.getElem?_cons_succ,
        backfillIds_getElem? pre getI setI (n + 1) xs i, harith]

theorem backfillIds_not_missing (pre : String) (getI : α → Option String)
    (setI : α → Option String → α)
    (hset : ∀ x v, getI (setI x v) = v) :
    ∀ (n : Nat) (xs : List α), ∀ x ∈ backfillIds pre getI setI n xs, getI x ≠ none
  | n, [] => by simp [backfillIds]
  | n, x :: xs => by
      intro y hy
      simp only [backfillIds, List.mem_cons] at hy
      rcases hy with hy | hy
      · subst hy
        cases hx : getI x with
        | none => simp [idMissing, hx, hset]
        | some s =>
            by_cases hs : s = ""
            · simp [idMissing, hx, hs, hset]
            · simp [idMissing, hx, hs]
      · exact backfillIds_not_missing pre getI setI hset (n + 1) xs y hy

/-! ## Merge-endpoint characterizations -/

theorem update_hours_ok {demo : String → Option String} {site_id : String}
    {hours : Hours} {tok : Option String} {db db2 : DB}
    (h : update_hours demo site_id hours tok db = .ok db2) :
    ∃ site, load_site site_id db = some site ∧
      db2 = save_site { site with hours := hours } db := by
  unfold update_hours at h
  cases hv : verify_auth demo site_id tok db with
  | error e => rw [hv] at h; cases h
  | ok b =>
      rw [hv] at h
      cases hl : load_site site_id db with
      | none => rw [hl] at h; cases h
      | some site =>
          rw [hl] at h
          cases h
          exact ⟨site, rfl, rfl⟩

theorem update_services_ok {demo : String → Option String} {site_id : String}
    {services : List Service} {tok : Option String} {db db2 : DB}
    (h : update_services demo site_id services tok db = .ok db2) :
    ∃ site, load_site site_id db = some site ∧
      db2 = save_site { site with services := assignServiceIds services } db := by
  unfold update_services at h
  cases hv : verify_auth demo site_id tok db with
  | error e => rw [hv] at h; cases h
  | ok b =>
      rw [hv] at h
      cases hl : load_site site_id db with
      | none => rw [hl] at h; cases h
      | some site =>
          rw [hl] at h
          cases h
          exact ⟨site, rfl, rfl⟩

theorem update_menu_ok {demo : String → Option String} {site_id : String}
    {items : List MenuItem} {tok : Option String} {db db2 : DB}
    (h : update_menu demo site_id items tok db = .ok db2) :
    ∃ site, load_site site_id db = some site ∧
      db2 = save_site { site with menu_items := assignMenuItemIds items } db := by
  unfold update_menu at h
  cases hv : verify_auth demo site_id tok db with
  | error e => rw [hv] at h; cases h
  | ok b =>
      rw [hv] at h
      cases hl : load_site site_id db with
      | none => rw [hl] at h; cases h
      | some site =>
          rw [hl] at h
          cases h
          exact ⟨site, rfl, rfl⟩

theorem update_staff_ok {demo : String → Option String} {site_id : String}
    {staff : List StaffMember} {tok : Option String} {db db2 : DB}
    (h : update_staff demo site_id staff tok db = .ok db2) :
    ∃ site, load_site site_id db = some site ∧
      db2 = save_site { site with staff := assignStaffIds staff } db := by
  unfold update_staff at h
  cases hv : verify_auth demo site_id tok db with
  | error e => rw [hv] at h; cases h
  | ok b =>
      rw [hv] at h
      cases hl : load_site site_id db with
      | none => rw [hl] at h; cases h
      | some site =>
          rw [hl] at h
          cases h
          exact ⟨site, rfl, rfl⟩

theorem update_promotions_ok {demo : String → Option String} {site_id : String}
    {promos : List Promotion} {tok : Option String} {db db2 : DB}
    (h : update_promotions demo site_id promos tok db = .ok db2) :
    ∃ site, load_site site_id db = some site ∧
      db2 = save_site { site with promotions := assignPromotionIds promos } db := by
  unfold update_promotions at h
  cases hv : verify_auth demo site_id tok db with
  | error e => rw [hv] at h; cases h
  | ok b =>
      rw [hv] at h
      cases hl : load_site site_id db with
      | none => rw [hl] at h; cases h
      | some site =>
          rw [hl] at h
          cases h
          exact ⟨site, rfl, rfl⟩

/-! ## Concrete fixtures used by witnesses and counterexamples -/

/-- An environment/fallback table with no entries. -/
def demoNone : String → Option String := fun _ => none

/-- A fallback table mapping `"x"` to `"z"`; used to show the fallback is
ignored when a database password row exists. -/
def demoZ : String → Option String := fun site_id => if site_id = "x" then some "z" else none

/-- A database holding only a password row for site `"x"`. -/
def dbX : DB :=
  { site_content := [], site_passwords := [{ site_id := "x", password_hash := "p" }] }

/-- A service submitted without an id. -/
def svcNoId : Service := { id := none, title := "T", description := "D" }

/-- A full-record body whose `site_id` disagrees with the path and whose
single service lacks an id. -/
def bodyY : SiteContent :=
  { site_id := "y", business_name := "B", services := [svcNoId] }

/-- The database produced by the authorized full-record save of `bodyY`
addressed to site `"x"`. -/
def dbAfterFullSave : DB :=
  match update_site demoNone "x" bodyY (some "p") dbX with
  | .ok d => d
  | .error _ => dbX

/-! ## Claims -/

/-- C1 counterexample: the claim says Authenticate succeeds whenever the
token exactly equals the resolved credential, with no further condition.
For a site with no credential anywhere the resolved credential is `""`;
the token `""` is exactly equal to it, yet `verify_auth` fails with the
Unauthorized error (missing auth token), not success. -/
theorem c1_counterexample :
    resolveCredential demoNone DB.empty "x" = "" ∧
    verify_auth demoNone "x" (some "") DB.empty = .error .missingAuthToken :=
  ⟨rfl, rfl⟩

/-- C1 (amended): Authenticate fails with the Unauthorized error when the
token is absent or empty; fails with the InvalidCredential error when the
token is non-empty but not exactly equal to the resolved credential; and
succeeds when the token is non-empty and exactly equals the resolved
credential. -/
theorem c1_authenticate_cases (demo : String → Option String) (db : DB)
    (site_id : String) :
    (verify_auth demo site_id none db = .error .missingAuthToken) ∧
    (verify_auth demo site_id (some "") db = .error .missingAuthToken) ∧
    (∀ t : String, t ≠ "" → t ≠ resolveCredential demo db site_id →
        verify_auth demo site_id (some t) db = .error .invalidAuthToken) ∧
    (∀ t : String, t ≠ "" → t = resolveCredential demo db site_id →
        verify_auth demo site_id (some t) db = .ok true) := by
  refine ⟨rfl, rfl, ?_, ?_⟩
  · intro t ht hne
    unfold resolveCredential at hne
    unfold verify_auth
    cases hf : db.site_passwords.find? (fun r => r.site_id = site_id) with
    | some pw_row => rw [hf] at hne; simp [ht, hf, hne]
    | none => rw [hf] at hne; simp [ht, hf, hne]
  · intro t ht heq
    unfold verify_auth
    cases hf : db.site_passwords.find? (fun r => r.site_id = site_id) with
    | some pw_row =>
        have heq2 : t = pw_row.password_hash := by
          unfold resolveCredential at heq; rw [hf] at heq; exact heq
        subst heq2
        simp [ht, hf]
    | none =>
        have heq2 : t = (demo site_id).getD "" := by
          unfold resolveCredential at heq; rw [hf] at heq; exact heq
        subst heq2
        simp [ht, hf]

/-- C1 witness: for site `"x"` with stored password `"p"`, a wrong
non-empty token is rejected as invalid and the correct token succeeds. -/
theorem c1_witness :
    verify_auth demoNone "x" (some "q") dbX = .error .invalidAuthToken ∧
    verify_auth demoNone "x" (some "p") dbX = .ok true :=
  ⟨(c1_authenticate_cases demoNone dbX "x").2.2.1 "q" (by decide) (by decide),
   (c1_authenticate_cases demoNone dbX "x").2.2.2 "p" (by decide) (by decide)⟩

/-- C2: saving a full record and loading the same identifier returns the
saved content exactly, whether or not a record previously existed — the
round trip through the serialized columns is the identity. -/
theorem c2_save_load_roundtrip (c : SiteContent) (db : DB) :
    load_site c.site_id (save_site c db) = some c :=
  load_site_save_site c db

/-- C3: for a site identifier with no stored record, `load_site` does not
fail and returns the deterministic default record: business name equal to
the identifier with dashes replaced by spaces and then title-cased,
all seven hours entries `"Closed"`, and empty collections. -/
theorem c3_load_default (site_id : String) (db : DB)
    (h : db.site_content.find? (fun r => r.site_id = site_id) = none) :
    load_site site_id db = some
      { site_id := site_id,
        business_name := pyTitle (pyReplace site_id "-" " "),
        tagline := none, phone := none, email := none, address := none,
        hours := { monday := "Closed", tuesday := "Closed",
                   wednesday := "Closed", thursday := "Closed",
                   friday := "Closed", saturday := "Closed",
                   sunday := "Closed" },
        services := [], staff := [], menu_items := [], promotions := [] } := by
  unfold load_site
  rw [h]

/-- C3 witness: the empty store has no record for `"jw-cafe"` and loading
it yields the default record with business name `"Jw Cafe"`. -/
theorem c3_witness :
    DB.empty.site_content.find? (fun r => r.site_id = "jw-cafe") = none ∧
    load_site "jw-cafe" DB.empty = some
      { site_id := "jw-cafe", business_name := "Jw Cafe" } := by
  refine ⟨rfl, ?_⟩
  rw [c3_load_default "jw-cafe" DB.empty rfl]
  decide

/-- C4: site creation fails with the Forbidden error on a wrong admin
token; fails with the AlreadyExists error when a content record already
exists; and on success creates the minimal content record (identifier and
business name, defaults elsewhere) together with a per-site credential
exactly equal to the supplied password, after which a second creation for
the same identifier fails with AlreadyExists. -/
theorem c4_create_site (master_pw : String) (sd : SiteCreate)
    (tok : Option String) (db : DB) :
    (tok ≠ some master_pw →
        create_site master_pw sd tok db = .error .adminAuthRequired) ∧
    (∀ row, tok = some master_pw →
        db.site_content.find? (fun r => r.site_id = sd.site_id) = some row →
        create_site master_pw sd tok db = .error .siteAlreadyExists) ∧
    (tok = some master_pw →
        db.site_content.find? (fun r => r.site_id = sd.site_id) = none →
        db.site_passwords.find? (fun r => r.site_id = sd.site_id) = none →
        ∃ db2, create_site master_pw sd tok db = .ok db2 ∧
          load_site sd.site_id db2 = some
            { site_id := sd.site_id, business_name := sd.business_name } ∧
          (∀ demo, resolveCredential demo db2 sd.site_id = sd.password) ∧
          create_site master_pw sd tok db2 = .error .siteAlreadyExists) := by
  refine ⟨?_, ?_, ?_⟩
  · intro hne
    unfold create_site
    simp [hne]
  · intro row htok hf
    subst htok
    unfold create_site
    simp [hf]
  · intro htok hf hpw
    subst htok
    refine ⟨{ site_content := db.site_content ++
                [{ site_id := sd.site_id, business_name := sd.business_name }],
              site_passwords := db.site_passwords ++
                [{ site_id := sd.site_id, password_hash := sd.password }] },
            ?_, ?_, ?_, ?_⟩
    · unfold create_site
      simp [hf, hpw]
    · unfold load_site
      rw [find?_append_none hf]
      rw [List.find?_cons_of_pos _ (by simp)]
      rfl
    · intro demo
      unfold resolveCredential
      rw [find?_append_none hpw]
      rw [List.find?_cons_of_pos _ (by simp)]
    · unfold create_site
      rw [if_neg (by simp)]
      rw [find?_append_none hf]
      rw [List.find?_cons_of_pos _ (by simp)]

/-- C4 witness: creating `"new-site"` in the empty store with the correct
admin token succeeds with credential `"pw1"`, a wrong admin token is
rejected, and a repeat creation collides. -/
theorem c4_witness :
    (create_site "admin123" ⟨"new-site", "New Site", "pw1"⟩ (some "wrong")
        DB.empty = .error .adminAuthRequired) ∧
    (∃ db2, create_site "admin123" ⟨"new-site", "New Site", "pw1"⟩
          (some "admin123") DB.empty = .ok db2 ∧
        load_site "new-site" db2 = some
          { site_id := "new-site", business_name := "New Site" } ∧
        (∀ demo, resolveCredential demo db2 "new-site" = "pw1") ∧
        create_site "admin123" ⟨"new-site", "New Site", "pw1"⟩
          (some "admin123") db2 = .error .siteAlreadyExists) :=
  ⟨(c4_create_site "admin123" ⟨"new-site", "New Site", "pw1"⟩ (some "wrong")
      DB.empty).1 (by decide),
   (c4_create_site "admin123" ⟨"new-site", "New Site", "pw1"⟩ (some "admin123")
      DB.empty).2.2 rfl rfl rfl⟩

/-- C5: each per-field merge of a list-valued field assigns every
submitted id-less element the id `"<kind-prefix>-<index>"` — prefix `svc`,
`staff`, `menu` or `promo` according to the field — where the index is the
element's zero-based position in the submitted list, as observed by a
subsequent load. -/
theorem c5_merge_assigns_ids (demo : String → Option String) (site_id : String)
    (tok : Option String) (db : DB) :
    (∀ services db2, update_services demo site_id services tok db = .ok db2 →
        ∃ s, load_site site_id db2 = some s ∧
          ∀ (i : Nat) (x : Service), services[i]? = some x → x.id = none →
            (s.services[i]?).map Service.id = some (some ("svc-" ++ toString i))) ∧
    (∀ staff db2, update_staff demo site_id staff tok db = .ok db2 →
        ∃ s, load_site site_id db2 = some s ∧
          ∀ (i : Nat) (x : StaffMember), staff[i]? = some x → x.id = none →
            (s.staff[i]?).map StaffMember.id = some (some ("staff-" ++ toString i))) ∧
    (∀ items db2, update_menu demo site_id items tok db = .ok db2 →
        ∃ s, load_site site_id db2 = some s ∧
          ∀ (i : Nat) (x : MenuItem), items[i]? = some x → x.id = none →
            (s.menu_items[i]?).map MenuItem.id = some (some ("menu-" ++ toString i))) ∧
    (∀ promos db2, update_promotions demo site_id promos tok db = .ok db2 →
        ∃ s, load_site site_id db2 = some s ∧
          ∀ (i : Nat) (x : Promotion), promos[i]? = some x → x.id = none →
            (s.promotions[i]?).map Promotion.id = some (some ("promo-" ++ toString i))) := by
  refine ⟨?_, ?_, ?_, ?_⟩
  · intro services db2 hok
    obtain ⟨site, hl, rfl⟩ := update_services_ok hok
    have hsid : site.site_id = site_id := load_site_site_id hl
    refine ⟨{ site with services := assignServiceIds services }, ?_, ?_⟩
    · rw [← hsid]
      exact load_site_save_site { site with services := assignServiceIds services } db
    · intro i x hx hid
      show (assignServiceIds services)[i]?.map Service.id = _
      rw [assignServiceIds,
        backfillIds_getElem? "svc" Service.id (fun s v => { s with id := v })
          0 services i, hx]
      simp [idMissing, hid, Nat.zero_add, show "svc" ++ "-" = "svc-" from rfl]
  · intro staff db2 hok
    obtain ⟨site, hl, rfl⟩ := update_staff_ok hok
    have hsid : site.site_id = site_id := load_site_site_id hl
    refine ⟨{ site with staff := assignStaffIds staff }, ?_, ?_⟩
    · rw [← hsid]
      exact load_site_save_site { site with staff := assignStaffIds staff } db
    · intro i x hx hid
      show (assignStaffIds staff)[i]?.map StaffMember.id = _
      rw [assignStaffIds,
        backfillIds_getElem? "staff" StaffMember.id (fun s v => { s with id := v })
          0 staff i, hx]
      simp [idMissing, hid, Nat.zero_add, show "staff" ++ "-" = "staff-" from rfl]
  · intro items db2 hok
    obtain ⟨site, hl, rfl⟩ := update_menu_ok hok
    have hsid : site.site_id = site_id := load_site_site_id hl
    refine ⟨{ site with menu_items := assignMenuItemIds items }, ?_, ?_⟩
    · rw [← hsid]
      exact load_site_save_site { site with menu_items := assignMenuItemIds items } db
    · intro i x hx hid
      show (assignMenuItemIds items)[i]?.map MenuItem.id = _
      rw [assignMenuItemIds,
        backfillIds_getElem? "menu" MenuItem.id (fun m v => { m with id := v })
          0 items i, hx]
      simp [idMissing, hid, Nat.zero_add, show "menu" ++ "-" = "menu-" from rfl]
  · intro promos db2 hok
    obtain ⟨site, hl, rfl⟩ := update_promotions_ok hok
    have hsid : site.site_id = site_id := load_site_site_id hl
    refine ⟨{ site with promotions := assignPromotionIds promos }, ?_, ?_⟩
    · rw [← hsid]
      exact load_site_save_site { site with promotions := assignPromotionIds promos } db
    · intro i x hx hid
      show (assignPromotionIds promos)[i]?.map Promotion.id = _
      rw [assignPromotionIds,
        backfillIds_getElem? "promo" Promotion.id (fun p v => { p with id := v })
          0 promos i, hx]
      simp [idMissing, hid, Nat.zero_add, show "promo" ++ "-" = "promo-" from rfl]

/-- C5 witness: merging a single id-less service into site `"x"` and
loading gives `services[0].id = "svc-0"`. -/
theorem c5_witness :
    ∃ s, load_site "x" (save_site
        { site_id := "x", business_name := "X",
          services := assignServiceIds [svcNoId] } dbX) = some s ∧
      (s.services[0]?).map Service.id = some (some "svc-0") := by
  obtain ⟨s, hs, hid⟩ :=
    (c5_merge_assigns_ids demoNone "x" (some "p") dbX).1 [svcNoId] _ rfl
  exact ⟨s, hs, hid 0 svcNoId rfl rfl⟩

/-- C6: every authorized merge endpoint replaces exactly its one named
top-level field: a load after the merge agrees with the load before it on
every other field of the record. -/
theorem c6_merge_frame (demo : String → Option String) (site_id : String)
    (tok : Option String) (db : DB) :
    (∀ hours db2, update_hours demo site_id hours tok db = .ok db2 →
        ∃ s s2, load_site site_id db = some s ∧ load_site site_id db2 = some s2 ∧
          s2.site_id = s.site_id ∧ s2.business_name = s.business_name ∧
          s2.tagline = s.tagline ∧ s2.phone = s.phone ∧ s2.email = s.email ∧
          s2.address = s.address ∧ s2.services = s.services ∧
          s2.staff = s.staff ∧ s2.menu_items = s.menu_items ∧
          s2.promotions = s.promotions) ∧
    (∀ services db2, update_services demo site_id services tok db = .ok db2 →
        ∃ s s2, load_site site_id db = some s ∧ load_site site_id db2 = some s2 ∧
          s2.site_id = s.site_id ∧ s2.business_name = s.business_name ∧
          s2.tagline = s.tagline ∧ s2.phone = s.phone ∧ s2.email = s.email ∧
          s2.address = s.address ∧ s2.hours = s.hours ∧
          s2.staff = s.staff ∧ s2.menu_items = s.menu_items ∧
          s2.promotions = s.promotions) ∧
    (∀ staff db2, update_staff demo site_id staff tok db = .ok db2 →
        ∃ s s2, load_site site_id db = some s ∧ load_site site_id db2 = some s2 ∧
          s2.site_id = s.site_id ∧ s2.business_name = s.business_name ∧
          s2.tagline = s.tagline ∧ s2.phone = s.phone ∧ s2.email = s.email ∧
          s2.address = s.address ∧ s2.hours = s.hours ∧
          s2.services = s.services ∧ s2.menu_items = s.menu_items ∧
          s2.promotions = s.promotions) ∧
    (∀ items db2, update_menu demo site_id items tok db = .ok db2 →
        ∃ s s2, load_site site_id db = some s ∧ load_site site_id db2 = some s2 ∧
          s2.site_id = s.site_id ∧ s2.business_name = s.business_name ∧
          s2.tagline = s.tagline ∧ s2.phone = s.phone ∧ s2.email = s.email ∧
          s2.address = s.address ∧ s2.hours = s.hours ∧
          s2.services = s.services ∧ s2.staff = s.staff ∧
          s2.promotions = s.promotions) ∧
    (∀ promos db2, update_promotions demo site_id promos tok db = .ok db2 →
        ∃ s s2, load_site site_id db = some s ∧ load_site site_id db2 = some s2 ∧
          s2.site_id = s.site_id ∧ s2.business_name = s.business_name ∧
          s2.tagline = s.tagline ∧ s2.phone = s.phone ∧ s2.email = s.email ∧
          s2.address = s.address ∧ s2.hours = s.hours ∧
          s2.services = s.services ∧ s2.staff = s.staff ∧
          s2.menu_items = s.menu_items) := by
  refine ⟨?_, ?_, ?_, ?_, ?_⟩
  · intro hours db2 hok
    obtain ⟨site, hl, rfl⟩ := update_hours_ok hok
    have hsid : site.site_id = site_id := load_site_site_id hl
    refine ⟨site, { site with hours := hours }, hl, ?_,
      rfl, rfl, rfl, rfl, rfl, rfl, rfl, rfl, rfl, rfl⟩
    rw [← hsid]
    exact load_site_save_site { site with hours := hours } db
  · intro services db2 hok
    obtain ⟨site, hl, rfl⟩ := update_services_ok hok
    have hsid : site.site_id = site_id := load_site_site_id hl
    refine ⟨site, { site with services := assignServiceIds services }, hl, ?_,
      rfl, rfl, rfl, rfl, rfl, rfl, rfl, rfl, rfl, rfl⟩
    rw [← hsid]
    exact load_site_save_site { site with services := assignServiceIds services } db
  · intro staff db2 hok
    obtain ⟨site, hl, rfl⟩ := update_staff_ok hok
    have hsid : site.site_id = site_id := load_site_site_id hl
    refine ⟨site, { site with staff := assignStaffIds staff }, hl, ?_,
      rfl, rfl, rfl, rfl, rfl, rfl, rfl, rfl, rfl, rfl⟩
    rw [← hsid]
    exact load_site_save_site { site with staff := assignStaffIds staff } db
  · intro items db2 hok
    obtain ⟨site, hl, rfl⟩ := update_menu_ok hok
    have hsid : site.site_id = site_id := load_site_site_id hl
    refine ⟨site, { site with menu_items := assignMenuItemIds items }, hl, ?_,
      rfl, rfl, rfl, rfl, rfl, rfl, rfl, rfl, rfl, rfl⟩
    rw [← hsid]
    exact load_site_save_site { site with menu_items := assignMenuItemIds items } db
  · intro promos db2 hok
    obtain ⟨site, hl, rfl⟩ := update_promotions_ok hok
    have hsid : site.site_id = site_id := load_site_site_id hl
    refine ⟨site, { site with promotions := assignPromotionIds promos }, hl, ?_,
      rfl, rfl, rfl, rfl, rfl, rfl, rfl, rfl, rfl, rfl⟩
    rw [← hsid]
    exact load_site_save_site { site with promotions := assignPromotionIds promos } db

/-- C6 witness: an authorized hours merge on site `"x"` leaves every
field other than `hours` as the load before it returned them. -/
theorem c6_witness :
    ∃ s s2, load_site "x" dbX = some s ∧
      load_site "x" (save_site
        { site_id := "x", business_name := "X",
          hours := { monday := "9-5" } } dbX) = some s2 ∧
      s2.site_id = s.site_id ∧ s2.business_name = s.business_name ∧
      s2.tagline = s.tagline ∧ s2.phone = s.phone ∧ s2.email = s.email ∧
      s2.address = s.address ∧ s2.services = s.services ∧
      s2.staff = s.staff ∧ s2.menu_items = s.menu_items ∧
      s2.promotions = s.promotions :=
  (c6_merge_frame demoNone "x" (some "p") dbX).1 { monday := "9-5" } _ rfl

/-- C7: a record found under a key always carries that key in its
`site_id` column, and an authorized full save addressed to `site_id`
stores the submitted record under `site_id` with its `site_id` field
overwritten to the path value, even when the body carried a different
`site_id`. -/
theorem c7_site_id_matches_key :
    (∀ (db : DB) (k : String) (row : SiteContentDB),
        db.site_content.find? (fun r => r.site_id = k) = some row →
        row.site_id = k) ∧
    (∀ (demo : String → Option String) (site_id : String)
        (content : SiteContent) (tok : Option String) (db db2 : DB),
        update_site demo site_id content tok db = .ok db2 →
        db2 = save_site { content with site_id := site_id } db ∧
        load_site site_id db2 = some { content with site_id := site_id }) := by
  constructor
  · intro db k row h
    have := List.find?_some h
    simpa using this
  · intro demo site_id content tok db db2 h
    unfold update_site at h
    cases hv : verify_auth demo site_id tok db with
    | error e => rw [hv] at h; cases h
    | ok b =>
        rw [hv] at h
        cases h
        exact ⟨rfl, load_site_save_site { content with site_id := site_id } db⟩

/-- C7 witness: the authorized full save of a body carrying `site_id`
`"y"` addressed to `"x"` stores the record under `"x"` with its `site_id`
field overwritten to `"x"`. -/
theorem c7_witness :
    (∃ row, dbAfterFullSave.site_content.find? (fun r => r.site_id = "x") =
        some row ∧ row.site_id = "x") ∧
    load_site "x" dbAfterFullSave = some { bodyY with site_id := "x" } :=
  ⟨⟨_, rfl, c7_site_id_matches_key.1 dbAfterFullSave "x" _ rfl⟩,
   (c7_site_id_matches_key.2 demoNone "x" bodyY (some "p") dbX
      dbAfterFullSave rfl).2⟩

/-- C8: credential resolution is ordered.  When a database password row
exists it alone is compared — both `verify_auth` and `login` are
insensitive to the fallback table.  When no row exists the fallback entry
is used (defaulting to `""`).  When neither has an entry, authentication
fails for every token and login fails for every password. -/
theorem c8_resolution_order (demo demo2 : String → Option String) (db : DB)
    (site_id : String) :
    (∀ pw_row,
        db.site_passwords.find? (fun r => r.site_id = site_id) = some pw_row →
        resolveCredential demo db site_id = pw_row.password_hash ∧
        (∀ tok, verify_auth demo site_id tok db = verify_auth demo2 site_id tok db) ∧
        (∀ auth : SiteAuth, auth.site_id = site_id →
            login demo auth db = login demo2 auth db)) ∧
    (db.site_passwords.find? (fun r => r.site_id = site_id) = none →
        resolveCredential demo db site_id = (demo site_id).getD "") ∧
    (db.site_passwords.find? (fun r => r.site_id = site_id) = none →
        demo site_id = none →
        (∀ tok, verify_auth demo site_id tok db ≠ .ok true) ∧
        (∀ auth : SiteAuth, auth.site_id = site_id →
            login demo auth db = .error .invalidCredentials)) := by
  refine ⟨?_, ?_, ?_⟩
  · intro pw_row hf
    refine ⟨?_, ?_, ?_⟩
    · unfold resolveCredential
      rw [hf]
    · intro tok
      cases tok with
      | none => rfl
      | some t =>
          unfold verify_auth
          rw [hf]
    · intro auth ha
      unfold login
      rw [ha, hf]
  · intro hf
    unfold resolveCredential
    rw [hf]
  · intro hf hd
    constructor
    · intro tok
      cases tok with
      | none => simp [verify_auth]
      | some t =>
          by_cases ht : t = ""
          · simp [verify_auth, ht]
          · simp [verify_auth, ht, hf, hd]
    · intro auth ha
      unfold login
      rw [ha, hf, hd]

/-- C8 witness: with a password row `"p"` for `"x"`, resolution returns
`"p"` and ignores a fallback entry `"z"`; with neither store populated,
authentication and login fail. -/
theorem c8_witness :
    resolveCredential demoZ dbX "x" = "p" ∧
    verify_auth demoZ "x" (some "z") dbX = verify_auth demoNone "x" (some "z") dbX ∧
    login demoZ ⟨"x", "z"⟩ dbX = login demoNone ⟨"x", "z"⟩ dbX ∧
    verify_auth demoNone "x" (some "p") DB.empty ≠ .ok true ∧
    login demoNone ⟨"x", "p"⟩ DB.empty = .error .invalidCredentials :=
  ⟨((c8_resolution_order demoZ demoNone dbX "x").1 ⟨"x", "p"⟩ rfl).1,
   ((c8_resolution_order demoZ demoNone dbX "x").1 ⟨"x", "p"⟩ rfl).2.1 (some "z"),
   ((c8_resolution_order demoZ demoNone dbX "x").1 ⟨"x", "p"⟩ rfl).2.2 ⟨"x", "z"⟩ rfl,
   ((c8_resolution_order demoNone demoNone DB.empty "x").2.2 rfl rfl).1 (some "p"),
   ((c8_resolution_order demoNone demoNone DB.empty "x").2.2 rfl rfl).2 ⟨"x", "p"⟩ rfl⟩

/-- C9: `login` compares the submitted password against the same resolved
credential as `verify_auth` by exact equality (for any non-empty
password the two agree on success); on success it returns the submitted
password itself as the token together with the site identifier; every
failure is the InvalidCredential error. -/
theorem c9_login_behavior (demo : String → Option String) (db : DB)
    (auth : SiteAuth) :
    (∀ r, login demo auth db = .ok r →
        r = { token := auth.password, site_id := auth.site_id }) ∧
    (∀ e, login demo auth db = .error e → e = .invalidCredentials) ∧
    (auth.password ≠ "" →
        (login demo auth db = .ok { token := auth.password, site_id := auth.site_id } ↔
         verify_auth demo auth.site_id (some auth.password) db = .ok true)) := by
  refine ⟨?_, ?_, ?_⟩
  · intro r hr
    unfold login at hr
    split at hr
    · split at hr
      · cases hr
      · cases hr
        rfl
    · split at hr
      · cases hr
      · split at hr
        · cases hr
        · split at hr
          · cases hr
          · cases hr
            rfl
  · intro e2 he2
    unfold login at he2
    split at he2
    · split at he2
      · cases he2
        rfl
      · cases he2
    · split at he2
      · cases he2
        rfl
      · split at he2
        · cases he2
          rfl
        · split at he2
          · cases he2
            rfl
          · cases he2
  · intro hne
    unfold login verify_auth
    cases hf : db.site_passwords.find? (fun x => x.site_id = auth.site_id) with
    | some pw =>
        by_cases hp : auth.password = pw.password_hash
        · have hne2 : pw.password_hash ≠ "" := hp ▸ hne
          simp [hp, hne2]
        · simp [hne, hp]
    | none =>
        cases hd : demo auth.site_id with
        | none => simp [hne, hd]
        | some e =>
            by_cases he : e = ""
            · subst he
              simp [hne, hd]
            · by_cases hp : auth.password = e
              · simp [hne, hd, he, hp]
              · simp [hne, hd, he, hp]

/-- C9 witness: logging in to `"x"` with its stored password `"p"`
returns the password itself as token, and agrees with `verify_auth`. -/
theorem c9_witness :
    (LoginResp.mk "p" "x" = { token := "p", site_id := "x" }) ∧
    (login demoNone ⟨"x", "p"⟩ dbX = .ok { token := "p", site_id := "x" } ↔
     verify_auth demoNone "x" (some "p") dbX = .ok true) :=
  ⟨(c9_login_behavior demoNone dbX ⟨"x", "p"⟩).1 ⟨"p", "x"⟩ rfl,
   (c9_login_behavior demoNone dbX ⟨"x", "p"⟩).2.2 (by decide)⟩

/-- C10 counterexample: the claim extends id back-fill to wholesale
replacement through the authorized full-record save, but `update_site`
performs no back-fill: saving a body whose single service lacks an id
stores that element with a missing id, observable on the next load. -/
theorem c10_counterexample :
    update_site demoNone "x" bodyY (some "p") dbX = .ok dbAfterFullSave ∧
    (load_site "x" dbAfterFullSave).map (fun s => s.services.map Service.id) =
      some [none] :=
  ⟨rfl, rfl⟩

/-- C10 (amended): when one of the four sub-record sequences is replaced
wholesale through a per-field merge operation, every stored element
carries an id (id-less submissions are auto-assigned); the authorized
full-record save, by contrast, stores the submitted sequences exactly as
supplied, without assigning missing ids. -/
theorem c10_backfill_scope (demo : String → Option String) (site_id : String)
    (tok : Option String) (db : DB) :
    (∀ services db2, update_services demo site_id services tok db = .ok db2 →
        ∃ s, load_site site_id db2 = some s ∧
          s.services = assignServiceIds services ∧
          ∀ x ∈ s.services, x.id ≠ none) ∧
    (∀ staff db2, update_staff demo site_id staff tok db = .ok db2 →
        ∃ s, load_site site_id db2 = some s ∧
          s.staff = assignStaffIds staff ∧
          ∀ x ∈ s.staff, x.id ≠ none) ∧
    (∀ items db2, update_menu demo site_id items tok db = .ok db2 →
        ∃ s, load_site site_id db2 = some s ∧
          s.menu_items = assignMenuItemIds items ∧
          ∀ x ∈ s.menu_items, x.id ≠ none) ∧
    (∀ promos db2, update_promotions demo site_id promos tok db = .ok db2 →
        ∃ s, load_site site_id db2 = some s ∧
          s.promotions = assignPromotionIds promos ∧
          ∀ x ∈ s.promotions, x.id ≠ none) ∧
    (∀ content db2, update_site demo site_id content tok db = .ok db2 →
        ∃ s, load_site site_id db2 = some s ∧
          s.services = content.services ∧ s.staff = content.staff ∧
          s.menu_items = content.menu_items ∧
          s.promotions = content.promotions) := by
  refine ⟨?_, ?_, ?_, ?_, ?_⟩
  · intro services db2 hok
    obtain ⟨site, hl, rfl⟩ := update_services_ok hok
    have hsid : site.site_id = site_id := load_site_site_id hl
    refine ⟨{ site with services := assignServiceIds services }, ?_, rfl, ?_⟩
    · rw [← hsid]
      exact load_site_save_site { site with services := assignServiceIds services } db
    · exact backfillIds_not_missing "svc" Service.id
        (fun s v => { s with id := v }) (fun _ _ => rfl) 0 services
  · intro staff db2 hok
    obtain ⟨site, hl, rfl⟩ := update_staff_ok hok
    have hsid : site.site_id = site_id := load_site_site_id hl
    refine ⟨{ site with staff := assignStaffIds staff }, ?_, rfl, ?_⟩
    · rw [← hsid]
      exact load_site_save_site { site with staff := assignStaffIds staff } db
    · exact backfillIds_not_missing "staff" StaffMember.id
        (fun s v => { s with id := v }) (fun _ _ => rfl) 0 staff
  · intro items db2 hok
    obtain ⟨site, hl, rfl⟩ := update_menu_ok hok
    have hsid : site.site_id = site_id := load_site_site_id hl
    refine ⟨{ site with menu_items := assignMenuItemIds items }, ?_, rfl, ?_⟩
    · rw [← hsid]
      exact load_site_save_site { site with menu_items := assignMenuItemIds items } db
    · exact backfillIds_not_missing "menu" MenuItem.id
        (fun m v => { m with id := v }) (fun _ _ => rfl) 0 items
  · intro promos db2 hok
    obtain ⟨site, hl, rfl⟩ := update_promotions_ok hok
    have hsid : site.site_id = site_id := load_site_site_id hl
    refine ⟨{ site with promotions := assignPromotionIds promos }, ?_, rfl, ?_⟩
    · rw [← hsid]
      exact load_site_save_site { site with promotions := assignPromotionIds promos } db
    · exact backfillIds_not_missing "promo" Promotion.id
        (fun p v => { p with id := v }) (fun _ _ => rfl) 0 promos
  · intro content db2 hok
    unfold update_site at hok
    cases hv : verify_auth demo site_id tok db with
    | error e => rw [hv] at hok; cases hok
    | ok b =>
        rw [hv] at hok
        cases hok
        exact ⟨{ content with site_id := site_id },
          load_site_save_site { content with site_id := site_id } db,
          rfl, rfl, rfl, rfl⟩

/-- C10 witness: an authorized services merge on `"x"` stores only
elements carrying ids, while the authorized full save of `bodyY` stores
its id-less service exactly as supplied. -/
theorem c10_witness :
    (∃ s, load_site "x" (save_site
          { site_id := "x", business_name := "X",
            services := assignServiceIds [svcNoId] } dbX) = some s ∧
        s.services = assignServiceIds [svcNoId] ∧
        ∀ x ∈ s.services, x.id ≠ none) ∧
    (∃ s, load_site "x" dbAfterFullSave = some s ∧
        s.services = bodyY.services ∧ s.staff = bodyY.staff ∧
        s.menu_items = bodyY.menu_items ∧ s.promotions = bodyY.promotions) :=
  ⟨(c10_backfill_scope demoNone "x" (some "p") dbX).1 [svcNoId] _ rfl,
   (c10_backfill_scope demoNone "x" (some "p") dbX).2.2.2.2 bodyY
     dbAfterFullSave rfl⟩

end ClientCMS
